import Mathlib

/-!
Shallow embedding of `src/openvidu-browser/src/OpenViduInternal/WebRtcPeer/WebRtcPeer.ts`
(the WebRTC negotiation controller of openvidu-browser).

The underlying media engine (the browser's `RTCPeerConnection`) is an external
collaborator; the repository drives it through a small operation set.  It is
modelled here at its interface boundary as explicit state
(`RTCPeerConnection` below) with deterministic operations that record every
invocation (call counters, the ordered log of candidate applications), plus
two behaviour knobs that let theorems quantify over engine behaviours the
controller code defends against:

* `badCandidates`: candidates whose application the engine fails;
* `dropsLocalDescription`: an engine that reports a null `localDescription`
  even after `setLocalDescription` succeeded (the case the controller's
  defensive check in `processLocalOffer` exists for);
* `supportsTransceivers`: whether `addTransceiver` / `getTransceivers` exist
  on the engine (the capability probe selecting the transceiver vs. legacy
  code path).

A JavaScript `Promise` executor may call `resolve` / `reject` any number of
times; only the first call settles the promise.  Each asynchronous operation
is therefore embedded as returning the ordered list of settle calls its
executor performs (`List (Settle α)`), together with the successor state.
The promise's observable outcome is the head of that list; an empty list
means the promise never settles.
-/

/-- The `RTCSignalingState` enum of the engine. -/
inductive SignalingState
  | stable
  | haveLocalOffer
  | haveRemoteOffer
  | haveLocalPranswer
  | haveRemotePranswer
  | closed
deriving DecidableEq, Repr

/-- The `mode` field of `WebRtcPeerConfiguration`: `'sendonly' | 'recvonly' | 'sendrecv'`. -/
inductive Mode
  | sendonly
  | recvonly
  | sendrecv
deriving DecidableEq, Repr

/-- The string the TypeScript union value denotes (used in template literals
and as a transceiver `direction`). -/
def Mode.str : Mode → String
  | Mode.sendonly => "sendonly"
  | Mode.recvonly => "recvonly"
  | Mode.sendrecv => "sendrecv"

/-- A `MediaStreamTrack`: only its `kind` (`"audio"` / `"video"`) and an
identity are observed by the controller. -/
structure MediaTrack where
  kind : String
  trackId : String
deriving DecidableEq, Repr

/-- A `MediaStream`.  `new MediaStream()` creates a fresh empty stream; the
model gives each created stream a distinct numeric identity so that
"freshly created" is observable. -/
structure MediaStream where
  streamId : Nat
  tracks : List MediaTrack
deriving DecidableEq, Repr

/-- An `RTCIceCandidate`, opaque to the controller except for its
`candidate` string. -/
structure RTCIceCandidate where
  candidate : String
deriving DecidableEq, Repr

/-- An `RTCSessionDescriptionInit`: a `type` tag (`"offer"` / `"answer"`)
plus opaque SDP text. -/
structure RTCSessionDescriptionInit where
  descType : String
  sdp : String
deriving DecidableEq, Repr

/-- One entry of `RTCRtpEncodingParameters` as used by the file. -/
structure RTCRtpEncodingParameters where
  rid : String
  maxBitrate : Nat
  scaleResolutionDownBy : Nat
deriving DecidableEq, Repr

/-- The fixed simulcast encoding table (`simulcastVideoEncodings`,
WebRtcPeer.ts lines 51-75). -/
def simulcastVideoEncodings : List RTCRtpEncodingParameters :=
  [ { rid := "r0", maxBitrate := 700000, scaleResolutionDownBy := 16 },
    { rid := "r1", maxBitrate := 800000, scaleResolutionDownBy := 8 },
    { rid := "r2", maxBitrate := 900000, scaleResolutionDownBy := 1 } ]

/-- An `RTCRtpTransceiver` as observed by this file: its media kind, its
`direction` string, the streams it was associated with, the
`sendEncodings` it was created with (if any), and the kind of its
receiver's track (what `createAnswer`'s `find` inspects). -/
structure RTCRtpTransceiver where
  kind : String
  direction : String
  streams : List MediaStream
  sendEncodings : Option (List RTCRtpEncodingParameters)
  receiverTrackKind : String
deriving DecidableEq, Repr

/-- The `mediaConstraints` field: `{audio: boolean, video: boolean}`. -/
structure MediaConstraints where
  audio : Bool
  video : Bool
deriving DecidableEq, Repr

/-- String indexing `this.configuration.mediaConstraints[kind]` for
`kind ∈ ["audio", "video"]`. -/
def MediaConstraints.get (mc : MediaConstraints) (kind : String) : Bool :=
  if kind = "audio" then mc.audio
  else if kind = "video" then mc.video
  else false

/-- `WebRtcPeerConfiguration` after the constructor filled in defaults
(`Required<WebRtcPeerConfiguration>`); the callback fields and `iceServers`
play no role in the verified operations and are omitted. -/
structure WebRtcPeerConfiguration where
  mediaConstraints : MediaConstraints
  simulcast : Bool
  mediaStream : Option MediaStream
  mode : Mode
  id : String
deriving DecidableEq, Repr

/-- The error taxonomy of the design: each `reject` site of WebRtcPeer.ts is
tagged with its class (the carried string is the exact message text of the
source).  `engineError` is a failure propagated unchanged from the engine. -/
inductive Err
  | configurationError (msg : String)
  | negotiationError (msg : String)
  | stateError (msg : String)
  | descriptionError (msg : String)
  | engineError (msg : String)
deriving DecidableEq, Repr

/-- One call to a promise executor's `resolve` (with a value) or `reject`
(with an error).  A promise settles with the FIRST such call; later calls
are ignored by the JavaScript runtime. -/
inductive Settle (α : Type)
  | resolve (v : α)
  | reject (e : Err)
deriving DecidableEq, Repr

/-- State of the engine (`this.pc : RTCPeerConnection`), observed at the
interface boundary.  Call counters and `appliedCandidates` record every
invocation the controller makes, in order. -/
structure RTCPeerConnection where
  signalingState : SignalingState
  localDescription : Option RTCSessionDescriptionInit
  remoteDescription : Option RTCSessionDescriptionInit
  transceivers : List RTCRtpTransceiver
  addedTracks : List MediaTrack
  appliedCandidates : List RTCIceCandidate
  setLocalDescriptionCalls : Nat
  setRemoteDescriptionCalls : Nat
  createOfferCalls : Nat
  createAnswerCalls : Nat
  closeCalls : Nat
  badCandidates : List RTCIceCandidate
  dropsLocalDescription : Bool
  supportsTransceivers : Bool
deriving DecidableEq, Repr

/-- Engine `pc.setLocalDescription(desc)`.  Fails when the connection is
closed; on success the engine stores the description (unless it is a
`dropsLocalDescription` engine) and transitions its signaling state. -/
def engineSetLocalDescription (pc : RTCPeerConnection) (desc : RTCSessionDescriptionInit) :
    Except String Unit × RTCPeerConnection :=
  let pc := { pc with setLocalDescriptionCalls := pc.setLocalDescriptionCalls + 1 }
  if pc.signalingState = SignalingState.closed then
    (Except.error "InvalidStateError: peer connection is closed", pc)
  else
    (Except.ok (),
      { pc with
        localDescription := if pc.dropsLocalDescription then none else some desc,
        signalingState :=
          if desc.descType = "offer" then SignalingState.haveLocalOffer
          else SignalingState.stable })

/-- Engine `pc.setRemoteDescription(desc)`.  Fails when the connection is
closed; on success stores the description and transitions. -/
def engineSetRemoteDescription (pc : RTCPeerConnection) (desc : RTCSessionDescriptionInit) :
    Except String Unit × RTCPeerConnection :=
  let pc := { pc with setRemoteDescriptionCalls := pc.setRemoteDescriptionCalls + 1 }
  if pc.signalingState = SignalingState.closed then
    (Except.error "InvalidStateError: peer connection is closed", pc)
  else
    (Except.ok (),
      { pc with
        remoteDescription := some desc,
        signalingState :=
          if desc.descType = "offer" then SignalingState.haveRemoteOffer
          else SignalingState.stable })

/-- Engine `pc.addIceCandidate(c)`.  The attempt is always logged in arrival
order; the engine fails the attempt exactly when the candidate is in its
`badCandidates` set. -/
def engineAddIceCandidate (pc : RTCPeerConnection) (c : RTCIceCandidate) :
    Except String Unit × RTCPeerConnection :=
  let pc := { pc with appliedCandidates := pc.appliedCandidates ++ [c] }
  if pc.badCandidates.contains c then
    (Except.error "OperationError: candidate could not be applied", pc)
  else
    (Except.ok (), pc)

/-- Engine `pc.createOffer()` / `pc.createOffer(options)`.  Produces an
opaque offer description unless the connection is closed.  `options` carries
the legacy `(offerToReceiveAudio, offerToReceiveVideo)` pair when present;
the SDP text is opaque to this model, so the engine result does not depend
on it. -/
def engineCreateOffer (pc : RTCPeerConnection) (options : Option (Bool × Bool)) :
    Except String RTCSessionDescriptionInit × RTCPeerConnection :=
  let _ := options
  let pc := { pc with createOfferCalls := pc.createOfferCalls + 1 }
  if pc.signalingState = SignalingState.closed then
    (Except.error "InvalidStateError: peer connection is closed", pc)
  else
    (Except.ok { descType := "offer", sdp := "sdp-offer" }, pc)

/-- Engine `pc.createAnswer()`.  Produces an opaque answer description unless
the connection is closed. -/
def engineCreateAnswer (pc : RTCPeerConnection) :
    Except String RTCSessionDescriptionInit × RTCPeerConnection :=
  let pc := { pc with createAnswerCalls := pc.createAnswerCalls + 1 }
  if pc.signalingState = SignalingState.closed then
    (Except.error "InvalidStateError: peer connection is closed", pc)
  else
    (Except.ok { descType := "answer", sdp := "sdp-answer" }, pc)

/-- Engine `pc.close()`: the signaling state becomes `closed` (terminal). -/
def engineClose (pc : RTCPeerConnection) : RTCPeerConnection :=
  { pc with signalingState := SignalingState.closed, closeCalls := pc.closeCalls + 1 }

/-- The controller state (`class WebRtcPeer`): the engine plus the three
candidate queues and the configuration.  `nextStreamId` supplies the
identity of the next `new MediaStream()`. -/
structure WebRtcPeer where
  pc : RTCPeerConnection
  remoteCandidatesQueue : List RTCIceCandidate
  localCandidatesQueue : List RTCIceCandidate
  iceCandidateList : List RTCIceCandidate
  configuration : WebRtcPeerConfiguration
  nextStreamId : Nat
deriving DecidableEq, Repr

/-- Turns the result of an awaited engine call into the settle calls the
surrounding `.then(...).catch(...)` chain performs (resolving with the
engine's value, or rejecting with the engine's failure unchanged). -/
def settlesOf {α : Type} (res : Except String α) : List (Settle α) :=
  match res with
  | Except.ok v => [Settle.resolve v]
  | Except.error e => [Settle.reject (Err.engineError e)]

/-- Like `settlesOf` but for `resolve()` with no value
(`.then(() => resolve())`). -/
def settlesOfUnit (res : Except String Unit) : List (Settle Unit) :=
  match res with
  | Except.ok _ => [Settle.resolve ()]
  | Except.error e => [Settle.reject (Err.engineError e)]

/-- WebRtcPeer.ts lines 143-145: `getId()`. -/
def WebRtcPeer.getId (peer : WebRtcPeer) : String :=
  peer.configuration.id

/-- WebRtcPeer.ts lines 150-160: `dispose()`.  Returns unchanged if the
engine is already closed; otherwise closes the engine and clears the two
audit queues (`remoteCandidatesQueue`, `localCandidatesQueue`). -/
def WebRtcPeer.dispose (peer : WebRtcPeer) : WebRtcPeer :=
  if peer.pc.signalingState = SignalingState.closed then
    peer
  else
    { peer with
      pc := engineClose peer.pc,
      remoteCandidatesQueue := [],
      localCandidatesQueue := [] }

/-- WebRtcPeer.ts lines 135-138: the body of the `while` loop inside the
`signalingstatechange` listener — shift each buffered candidate and hand it
to `pc.addIceCandidate` (the returned promise is not awaited and not
inspected, so a failed application does not stop the loop). -/
def drainIceCandidateLoop : List RTCIceCandidate → RTCPeerConnection → RTCPeerConnection
  | [], pc => pc
  | c :: rest, pc => drainIceCandidateLoop rest (engineAddIceCandidate pc c).2

/-- WebRtcPeer.ts lines 133-140: the `signalingstatechange` listener
registered by the constructor.  When the engine (whose state transitions
are driven externally) is observed in `stable`, the pending buffer is
drained front-first into the engine. -/
def WebRtcPeer.onSignalingStateChange (peer : WebRtcPeer) : WebRtcPeer :=
  if peer.pc.signalingState = SignalingState.stable then
    { peer with
      iceCandidateList := [],
      pc := drainIceCandidateLoop peer.iceCandidateList peer.pc }
  else
    peer

/-- WebRtcPeer.ts lines 387-408: `addIceCandidate(iceCandidate)` — the
public `addRemoteCandidate` operation.  Always appends to the
`remoteCandidatesQueue` audit trail first, then classifies by the current
signaling state. -/
def WebRtcPeer.addIceCandidate (peer : WebRtcPeer) (c : RTCIceCandidate) :
    List (Settle Unit) × WebRtcPeer :=
  let peer := { peer with remoteCandidatesQueue := peer.remoteCandidatesQueue ++ [c] }
  match peer.pc.signalingState with
  | SignalingState.closed =>
      ([Settle.reject (Err.stateError "PeerConnection object is closed")], peer)
  | SignalingState.stable =>
      if peer.pc.remoteDescription.isSome then
        let r := engineAddIceCandidate peer.pc c
        (settlesOfUnit r.1, { peer with pc := r.2 })
      else
        ([Settle.resolve ()], { peer with iceCandidateList := peer.iceCandidateList ++ [c] })
  | _ =>
      ([Settle.resolve ()], { peer with iceCandidateList := peer.iceCandidateList ++ [c] })

/-- WebRtcPeer.ts lines 185-196: inside `createOffer`'s send branch, the
`addTransceiver(track, tcInit)` call for one track of the configured
stream.  `tcInit.direction` is the configured mode, `tcInit.streams` is the
configured stream, and `tcInit.sendEncodings` is set to the simulcast table
exactly when the track is a video track. -/
def addTransceiverForTrack (mode : Mode) (stream : MediaStream)
    (pc : RTCPeerConnection) (track : MediaTrack) : RTCPeerConnection :=
  let sendEncodings :=
    if track.kind = "video" then some simulcastVideoEncodings else none
  { pc with
    transceivers := pc.transceivers ++
      [ { kind := track.kind,
          direction := mode.str,
          streams := [stream],
          sendEncodings := sendEncodings,
          receiverTrackKind := track.kind } ] }

/-- WebRtcPeer.ts lines 199-210: one iteration of `createOffer`'s
receive-only loop for a media kind.  If the kind is disabled in
`mediaConstraints` nothing happens; otherwise a fresh empty `MediaStream`
is created (and stored into `configuration.mediaStream`, as the source
does) and a transceiver for that kind is added with the configured mode as
direction and the fresh stream attached. -/
def addRecvonlyTransceiver (peer : WebRtcPeer) (kind : String) : WebRtcPeer :=
  if peer.configuration.mediaConstraints.get kind = false then
    peer
  else
    let stream : MediaStream := { streamId := peer.nextStreamId, tracks := [] }
    { peer with
      configuration := { peer.configuration with mediaStream := some stream },
      nextStreamId := peer.nextStreamId + 1,
      pc := { peer.pc with
        transceivers := peer.pc.transceivers ++
          [ { kind := kind,
              direction := peer.configuration.mode.str,
              streams := [stream],
              sendEncodings := none,
              receiverTrackKind := kind } ] } }

/-- WebRtcPeer.ts lines 166-250: `createOffer()`.  On a transceiver-capable
engine: in send modes, a missing configured stream rejects with the
configuration error and returns early; otherwise one transceiver per track
is added (video tracks carrying the simulcast table) and an offer is
requested.  In receive-only mode, one receive-only transceiver per enabled
media kind is added, each on a fresh empty stream, and an offer is
requested.  On a legacy engine, tracks are attached directly and an offer
is requested with `offerToReceive{Audio,Video}` options. -/
def WebRtcPeer.createOffer (peer : WebRtcPeer) :
    List (Settle RTCSessionDescriptionInit) × WebRtcPeer :=
  if peer.pc.supportsTransceivers then
    if peer.configuration.mode ≠ Mode.recvonly then
      match peer.configuration.mediaStream with
      | none =>
          ([Settle.reject (Err.configurationError
              (peer.configuration.mode.str ++
               " direction requested, but no stream was configured to be sent"))],
           peer)
      | some stream =>
          let pc1 := stream.tracks.foldl
            (addTransceiverForTrack peer.configuration.mode stream) peer.pc
          let r := engineCreateOffer pc1 none
          (settlesOf r.1, { peer with pc := r.2 })
    else
      let peer1 := addRecvonlyTransceiver peer "audio"
      let peer2 := addRecvonlyTransceiver peer1 "video"
      let r := engineCreateOffer peer2.pc none
      (settlesOf r.1, { peer2 with pc := r.2 })
  else
    let pc0 :=
      match peer.configuration.mediaStream with
      | some stream =>
          stream.tracks.foldl
            (fun pc t => { pc with addedTracks := pc.addedTracks ++ [t] }) peer.pc
      | none => peer.pc
    let hasAudio := peer.configuration.mediaConstraints.audio
    let hasVideo := peer.configuration.mediaConstraints.video
    let options : Bool × Bool :=
      (decide (peer.configuration.mode ≠ Mode.sendonly) && hasAudio,
       decide (peer.configuration.mode ≠ Mode.sendonly) && hasVideo)
    let r := engineCreateOffer pc0 (some options)
    (settlesOf r.1, { peer with pc := r.2 })

/-- Replaces the first transceiver whose receiver track kind matches with a
copy whose `direction` is forced to the given string — the mutation
`tc.direction = this.configuration.mode` performed on the transceiver that
`find` located (WebRtcPeer.ts lines 274-280). -/
def setDirectionFirst : List RTCRtpTransceiver → String → String → List RTCRtpTransceiver
  | [], _, _ => []
  | tc :: rest, kind, dir =>
      if tc.receiverTrackKind = kind then { tc with direction := dir } :: rest
      else tc :: setDirectionFirst rest kind dir

/-- WebRtcPeer.ts lines 268-284: one iteration of `createAnswer`'s loop over
`["audio", "video"]`.  A disabled kind is skipped.  For an enabled kind,
if a transceiver whose receiver track has that kind exists its direction is
forced to the configured mode; otherwise `reject` is called — with no early
return, so the loop continues and `pc.createAnswer()` is still reached. -/
def createAnswerKind (cfg : WebRtcPeerConfiguration)
    (st : List (Settle RTCSessionDescriptionInit) × RTCPeerConnection) (kind : String) :
    List (Settle RTCSessionDescriptionInit) × RTCPeerConnection :=
  if cfg.mediaConstraints.get kind = false then
    st
  else if (st.2.transceivers.find? (fun tc => tc.receiverTrackKind = kind)).isSome then
    (st.1, { st.2 with transceivers := setDirectionFirst st.2.transceivers kind cfg.mode.str })
  else
    (st.1 ++ [Settle.reject (Err.negotiationError
        (kind ++ " requested, but no transceiver was created from remote description"))],
     st.2)

/-- WebRtcPeer.ts lines 256-295: `createAnswer()`.  On a transceiver-capable
engine, each required media kind must already have a transceiver (created
by the engine when the remote offer was applied); missing ones `reject`
without returning, and an answer is then requested from the engine either
way.  On a legacy engine the executor body is empty: no settle call is ever
made. -/
def WebRtcPeer.createAnswer (peer : WebRtcPeer) :
    List (Settle RTCSessionDescriptionInit) × WebRtcPeer :=
  if peer.pc.supportsTransceivers then
    let st := createAnswerKind peer.configuration
      (createAnswerKind peer.configuration ([], peer.pc) "audio") "video"
    let r := engineCreateAnswer st.2
    (st.1 ++ settlesOf r.1, { peer with pc := r.2 })
  else
    ([], peer)

/-- WebRtcPeer.ts lines 300-316: `processLocalOffer(offer)`.  Applies the
offer as local description; on engine success, verifies that the engine
now reports a non-null `localDescription`, rejecting with the description
error if it does not; engine failure is propagated. -/
def WebRtcPeer.processLocalOffer (peer : WebRtcPeer) (offer : RTCSessionDescriptionInit) :
    List (Settle Unit) × WebRtcPeer :=
  let r := engineSetLocalDescription peer.pc offer
  match r.1 with
  | Except.ok _ =>
      if r.2.localDescription.isSome then
        ([Settle.resolve ()], { peer with pc := r.2 })
      else
        ([Settle.reject (Err.descriptionError "Local description is not defined")],
         { peer with pc := r.2 })
  | Except.error e =>
      ([Settle.reject (Err.engineError e)], { peer with pc := r.2 })

/-- WebRtcPeer.ts lines 345-355: `processLocalAnswer(answer)`.  If the
signaling state is `closed`, `reject` is called — but without a `return`,
so `setLocalDescription` is invoked regardless; its outcome produces a
second settle call.  No verification of the resulting `localDescription`
is performed. -/
def WebRtcPeer.processLocalAnswer (peer : WebRtcPeer) (answer : RTCSessionDescriptionInit) :
    List (Settle Unit) × WebRtcPeer :=
  let closedSettles :=
    if peer.pc.signalingState = SignalingState.closed then
      [Settle.reject (Err.stateError
        "RTCPeerConnection is closed when trying to set local description")]
    else []
  let r := engineSetLocalDescription peer.pc answer
  (closedSettles ++ settlesOfUnit r.1, { peer with pc := r.2 })

/-- WebRtcPeer.ts lines 321-340: `processRemoteOffer(sdpOffer)`.  Tags the
SDP text as an offer; if the signaling state is `closed`, `reject` is
called — but without a `return`, so `setRemoteDescription` is invoked
regardless; its outcome produces a further settle call. -/
def WebRtcPeer.processRemoteOffer (peer : WebRtcPeer) (sdpOffer : String) :
    List (Settle Unit) × WebRtcPeer :=
  let offer : RTCSessionDescriptionInit := { descType := "offer", sdp := sdpOffer }
  let closedSettles :=
    if peer.pc.signalingState = SignalingState.closed then
      [Settle.reject (Err.stateError
        "RTCPeerConnection is closed when trying to set remote description")]
    else []
  let r := engineSetRemoteDescription peer.pc offer
  (closedSettles ++ settlesOfUnit r.1, { peer with pc := r.2 })

/-- WebRtcPeer.ts lines 360-375: `processRemoteAnswer(sdpAnswer)`.  Tags the
SDP text as an answer; same closed-state `reject`-without-`return` shape as
`processRemoteOffer`. -/
def WebRtcPeer.processRemoteAnswer (peer : WebRtcPeer) (sdpAnswer : String) :
    List (Settle Unit) × WebRtcPeer :=
  let answer : RTCSessionDescriptionInit := { descType := "answer", sdp := sdpAnswer }
  let closedSettles :=
    if peer.pc.signalingState = SignalingState.closed then
      [Settle.reject (Err.stateError
        "RTCPeerConnection is closed when trying to set remote description")]
    else []
  let r := engineSetRemoteDescription peer.pc answer
  (closedSettles ++ settlesOfUnit r.1, { peer with pc := r.2 })

/-- A baseline engine state for concrete witnesses: open (`stable`), no
descriptions, transceiver-capable, no quirks. -/
def basePc : RTCPeerConnection :=
  { signalingState := SignalingState.stable,
    localDescription := none,
    remoteDescription := none,
    transceivers := [],
    addedTracks := [],
    appliedCandidates := [],
    setLocalDescriptionCalls := 0,
    setRemoteDescriptionCalls := 0,
    createOfferCalls := 0,
    createAnswerCalls := 0,
    closeCalls := 0,
    badCandidates := [],
    dropsLocalDescription := false,
    supportsTransceivers := true }

/-- A baseline configuration for concrete witnesses. -/
def baseConfig : WebRtcPeerConfiguration :=
  { mediaConstraints := { audio := true, video := true },
    simulcast := true,
    mediaStream := none,
    mode := Mode.sendrecv,
    id := "peer-0" }

/-- A baseline controller state for concrete witnesses. -/
def basePeer : WebRtcPeer :=
  { pc := basePc,
    remoteCandidatesQueue := [],
    localCandidatesQueue := [],
    iceCandidateList := [],
    configuration := baseConfig,
    nextStreamId := 0 }

/-- A small supply of distinct concrete candidates for witnesses. -/
def sampleCandidate (n : Nat) : RTCIceCandidate :=
  { candidate := "candidate-" ++ toString n }

/-- A peer whose engine is already closed. -/
def closedPeer : WebRtcPeer :=
  { basePeer with pc := { basePc with signalingState := SignalingState.closed } }

/-- A peer in `stable` with a remote description present (candidates are
applied to the engine immediately). -/
def stableReadyPeer : WebRtcPeer :=
  { basePeer with pc :=
    { basePc with remoteDescription := some { descType := "answer", sdp := "ra" } } }

/-- A peer in `have-local-offer` whose engine fails the application of
`sampleCandidate 1` (exercises the flush's per-candidate failure
isolation). -/
def flushPeer : WebRtcPeer :=
  { basePeer with pc :=
    { basePc with
      signalingState := SignalingState.haveLocalOffer,
      badCandidates := [sampleCandidate 1] } }

/-- A peer on a `dropsLocalDescription` engine: `setLocalDescription`
succeeds but `localDescription` stays null. -/
def quirkyPeer : WebRtcPeer :=
  { basePeer with pc := { basePc with dropsLocalDescription := true } }

/-- A peer on a legacy engine (no transceiver methods). -/
def legacyPeer : WebRtcPeer :=
  { basePeer with pc := { basePc with supportsTransceivers := false } }

/-- A configured outgoing stream with one audio and one video track. -/
def streamAV : MediaStream :=
  { streamId := 100,
    tracks := [ { kind := "audio", trackId := "a0" },
                { kind := "video", trackId := "v0" } ] }

/-- A send-receive peer with `streamAV` configured as its outgoing source. -/
def sendPeer : WebRtcPeer :=
  { basePeer with configuration := { baseConfig with mediaStream := some streamAV } }

/-- A receive-only peer wanting audio but not video. -/
def recvPeer : WebRtcPeer :=
  { basePeer with configuration :=
    { baseConfig with
      mode := Mode.recvonly,
      mediaConstraints := { audio := true, video := false } } }

/-- The video transceiver that `createOffer` adds for `sendPeer` (used in a
concrete check below). -/
def sendVideoTc : RTCRtpTransceiver :=
  { kind := "video",
    direction := "sendrecv",
    streams := [streamAV],
    sendEncodings := some simulcastVideoEncodings,
    receiverTrackKind := "video" }

/-- `mediaConstraints["audio"]` is the `audio` field. -/
theorem MediaConstraints.get_audio (mc : MediaConstraints) : mc.get "audio" = mc.audio := rfl

/-- `mediaConstraints["video"]` is the `video` field. -/
theorem MediaConstraints.get_video (mc : MediaConstraints) : mc.get "video" = mc.video := by
  rw [MediaConstraints.get, if_neg (by decide), if_pos rfl]

/-- The settle calls derived from an awaited engine result are never empty:
either `.then` resolves or `.catch` rejects. -/
theorem settlesOf_ne_nil {α : Type} (r : Except String α) : settlesOf r ≠ [] := by
  cases r <;> simp [settlesOf]

/-- The engine state after a candidate-application attempt: the attempt is
logged, nothing else changes (whether or not the engine failed it). -/
theorem engineAddIceCandidate_snd (pc : RTCPeerConnection) (c : RTCIceCandidate) :
    (engineAddIceCandidate pc c).2
      = { pc with appliedCandidates := pc.appliedCandidates ++ [c] } := by
  simp only [engineAddIceCandidate]
  split <;> rfl

/-- Draining the buffer hands every buffered candidate to the engine in
buffer order, regardless of which individual applications the engine
fails. -/
theorem drainIceCandidateLoop_appliedCandidates (cs : List RTCIceCandidate)
    (pc : RTCPeerConnection) :
    (drainIceCandidateLoop cs pc).appliedCandidates = pc.appliedCandidates ++ cs := by
  induction cs generalizing pc with
  | nil => simp [drainIceCandidateLoop]
  | cons c rest ih =>
      rw [drainIceCandidateLoop, engineAddIceCandidate_snd, ih]
      simp

/-- C10: `dispose()` leaves the pending-remote-candidate buffer
(`iceCandidateList`) unchanged — disposal clears only the two audit queues
(`localCandidatesQueue`, `remoteCandidatesQueue`), so candidates buffered
before disposal remain buffered afterwards. -/
theorem dispose_preserves_iceCandidateList (peer : WebRtcPeer) :
    peer.dispose.iceCandidateList = peer.iceCandidateList := by
  unfold WebRtcPeer.dispose
  split <;> rfl

/-- C9: `dispose()` is idempotent.  A first call on a non-closed connection
performs the engine close exactly once, leaves the signaling state
`closed`, and clears both audit queues; disposing again is the identity
(so two calls in succession close at most once), and `dispose` on an
already-closed connection is a no-op.  `dispose` is a total function into
controller states, so it never fails. -/
theorem dispose_idempotent (peer : WebRtcPeer)
    (h : peer.pc.signalingState ≠ SignalingState.closed) :
    peer.dispose.pc.closeCalls = peer.pc.closeCalls + 1
    ∧ peer.dispose.pc.signalingState = SignalingState.closed
    ∧ peer.dispose.remoteCandidatesQueue = []
    ∧ peer.dispose.localCandidatesQueue = []
    ∧ peer.dispose.dispose = peer.dispose
    ∧ (∀ q : WebRtcPeer, q.pc.signalingState = SignalingState.closed → q.dispose = q) := by
  have hd : peer.dispose
      = { peer with
          pc := engineClose peer.pc,
          remoteCandidatesQueue := [],
          localCandidatesQueue := [] } := by
    unfold WebRtcPeer.dispose
    rw [if_neg h]
  have hclosed : ∀ q : WebRtcPeer,
      q.pc.signalingState = SignalingState.closed → q.dispose = q := by
    intro q hq
    unfold WebRtcPeer.dispose
    rw [if_pos hq]
  refine ⟨?_, ?_, ?_, ?_, ?_, hclosed⟩
  · rw [hd]
    rfl
  · rw [hd]
    rfl
  · rw [hd]
  · rw [hd]
  · rw [hd]
    exact hclosed _ rfl

/-- Witness for C9 at a concrete open peer: the second disposal changes
nothing. -/
theorem dispose_idempotent_witness :
    basePeer.dispose.dispose = basePeer.dispose :=
  (dispose_idempotent basePeer (by decide)).2.2.2.2.1

/-- C1 (code evaluated at the failing situation): calling
`processRemoteOffer` or `processRemoteAnswer` while `signalingState` is
`closed` does make the promise fail with the state error (the `reject` in
the guard is the first settle call, and the first call wins) — but, because
that `reject` is not followed by a `return`, the engine's
`setRemoteDescription` is STILL invoked (its call counter increases),
contradicting the claim that no attempt is made to apply a remote
description. -/
theorem processRemote_closed_rejects_but_still_applies (peer : WebRtcPeer) (sdp : String)
    (h : peer.pc.signalingState = SignalingState.closed) :
    ((peer.processRemoteOffer sdp).1.head?
        = some (Settle.reject (Err.stateError
            "RTCPeerConnection is closed when trying to set remote description"))
      ∧ (peer.processRemoteOffer sdp).2.pc.setRemoteDescriptionCalls
          = peer.pc.setRemoteDescriptionCalls + 1)
    ∧ ((peer.processRemoteAnswer sdp).1.head?
        = some (Settle.reject (Err.stateError
            "RTCPeerConnection is closed when trying to set remote description"))
      ∧ (peer.processRemoteAnswer sdp).2.pc.setRemoteDescriptionCalls
          = peer.pc.setRemoteDescriptionCalls + 1) := by
  simp [WebRtcPeer.processRemoteOffer, WebRtcPeer.processRemoteAnswer,
    engineSetRemoteDescription, h]

/-- Witness for C1 at a concrete closed peer: the engine call counter
increases even though the promise has already been rejected. -/
theorem processRemote_closed_witness :
    (closedPeer.processRemoteOffer "v=0").2.pc.setRemoteDescriptionCalls
      = closedPeer.pc.setRemoteDescriptionCalls + 1 :=
  (processRemote_closed_rejects_but_still_applies closedPeer "v=0" rfl).1.2

/-- Counterexample to C2 as stated: on an engine lacking transceiver
support, `createAnswer`'s executor body is empty, so the operation performs
zero settle calls — it neither resolves nor fails. -/
theorem createAnswer_legacy_zero_settles :
    (legacyPeer.createAnswer).1.length = 0 := by
  decide

/-- C2 amended: `createAnswer` makes at least one settle call (hence, by
promise semantics, settles exactly once — the first call) precisely on
transceiver-capable engines; on an engine lacking transceiver support it
never settles. -/
theorem createAnswer_settles_iff_transceivers (peer : WebRtcPeer) :
    (peer.createAnswer).1 = [] ↔ peer.pc.supportsTransceivers = false := by
  unfold WebRtcPeer.createAnswer
  cases h : peer.pc.supportsTransceivers with
  | false => simp
  | true => simp [List.append_eq_nil, settlesOf_ne_nil]

/-- Counterexample to C4 as stated: on an engine that reports a null
`localDescription` after a successful `setLocalDescription`,
`processLocalAnswer` resolves anyway — it performs no verification and
never produces the description error. -/
theorem processLocalAnswer_no_verification :
    (quirkyPeer.processLocalAnswer { descType := "answer", sdp := "v=0" }).1
      = [Settle.resolve ()]
    ∧ (quirkyPeer.processLocalAnswer { descType := "answer", sdp := "v=0" }).2.pc.localDescription
      = none := by
  decide

/-- C4 amended: after a successful engine application, `processLocalOffer`
does verify that the engine reports a non-null local description, failing
with the description error when it is absent; `processLocalAnswer` performs
no such verification and resolves on engine success regardless of whether a
local description is present. -/
theorem processLocal_verification (peer : WebRtcPeer)
    (offer answer : RTCSessionDescriptionInit)
    (hopen : peer.pc.signalingState ≠ SignalingState.closed) :
    (peer.pc.dropsLocalDescription = true →
        (peer.processLocalOffer offer).1
          = [Settle.reject (Err.descriptionError "Local description is not defined")]
        ∧ (peer.processLocalOffer offer).2.pc.localDescription = none
        ∧ (peer.processLocalAnswer answer).1 = [Settle.resolve ()]
        ∧ (peer.processLocalAnswer answer).2.pc.localDescription = none)
    ∧ (peer.pc.dropsLocalDescription = false →
        (peer.processLocalOffer offer).1 = [Settle.resolve ()]) := by
  constructor <;> intro hdrop <;>
    simp [WebRtcPeer.processLocalOffer, WebRtcPeer.processLocalAnswer,
      engineSetLocalDescription, settlesOfUnit, hopen, hdrop]

/-- Witness for C4 (amended) at a concrete peer on a well-behaved engine:
`processLocalOffer` resolves. -/
theorem processLocal_verification_witness :
    (basePeer.processLocalOffer { descType := "offer", sdp := "v=0" }).1
      = [Settle.resolve ()] :=
  (processLocal_verification basePeer { descType := "offer", sdp := "v=0" }
    { descType := "answer", sdp := "v=0" } (by decide)).2 rfl

/-- C5: every `addRemoteCandidate` (`addIceCandidate`) call appends the
candidate to the `remoteCandidatesQueue` audit trail first — in every
branch, including the failing ones — and then classifies by the current
signaling state: `closed` fails with the state error; `stable` with a
remote description present applies the candidate to the engine immediately
and propagates that application's success or failure; `stable` without a
remote description, and every other non-closed state, buffer the candidate
in `iceCandidateList` and resolve. -/
theorem addIceCandidate_spec (peer : WebRtcPeer) (c : RTCIceCandidate) :
    (peer.addIceCandidate c).2.remoteCandidatesQueue
        = peer.remoteCandidatesQueue ++ [c]
    ∧ (peer.pc.signalingState = SignalingState.closed →
        (peer.addIceCandidate c).1
          = [Settle.reject (Err.stateError "PeerConnection object is closed")])
    ∧ (peer.pc.signalingState = SignalingState.stable →
        peer.pc.remoteDescription.isSome = true →
        (peer.addIceCandidate c).2.pc.appliedCandidates
            = peer.pc.appliedCandidates ++ [c]
        ∧ (peer.pc.badCandidates.contains c = false →
            (peer.addIceCandidate c).1 = [Settle.resolve ()])
        ∧ (peer.pc.badCandidates.contains c = true →
            (peer.addIceCandidate c).1
              = [Settle.reject
                  (Err.engineError "OperationError: candidate could not be applied")]))
    ∧ (peer.pc.signalingState = SignalingState.stable →
        peer.pc.remoteDescription = none →
        (peer.addIceCandidate c).1 = [Settle.resolve ()]
        ∧ (peer.addIceCandidate c).2.iceCandidateList = peer.iceCandidateList ++ [c])
    ∧ (peer.pc.signalingState ≠ SignalingState.closed →
        peer.pc.signalingState ≠ SignalingState.stable →
        (peer.addIceCandidate c).1 = [Settle.resolve ()]
        ∧ (peer.addIceCandidate c).2.iceCandidateList = peer.iceCandidateList ++ [c]) := by
  refine ⟨?_, ?_, ?_, ?_, ?_⟩
  · cases h : peer.pc.signalingState
    case stable =>
      simp only [WebRtcPeer.addIceCandidate, h]
      split <;> rfl
    all_goals simp [WebRtcPeer.addIceCandidate, h]
  · intro h
    simp [WebRtcPeer.addIceCandidate, h]
  · intro h hsome
    rw [Option.isSome_iff_exists] at hsome
    obtain ⟨d, hd⟩ := hsome
    refine ⟨?_, ?_, ?_⟩
    · simp [WebRtcPeer.addIceCandidate, h, hd, engineAddIceCandidate_snd]
    · intro hgood
      have hg : c ∉ peer.pc.badCandidates := by simpa using hgood
      simp [WebRtcPeer.addIceCandidate, engineAddIceCandidate, settlesOfUnit, h, hd, hg]
    · intro hbad
      have hb : c ∈ peer.pc.badCandidates := by simpa using hbad
      simp [WebRtcPeer.addIceCandidate, engineAddIceCandidate, settlesOfUnit, h, hd, hb]
  · intro h hnone
    constructor <;> simp [WebRtcPeer.addIceCandidate, h, hnone]
  · intro hc hs
    cases h : peer.pc.signalingState <;> first
      | (exact absurd h hs)
      | (exact absurd h hc)
      | (constructor <;> simp [WebRtcPeer.addIceCandidate, h])

/-- Witness for C5 at concrete peers: a closed peer rejects with the state
error; a stable peer with a remote description present resolves after
immediate application. -/
theorem addIceCandidate_spec_witness :
    (closedPeer.addIceCandidate (sampleCandidate 0)).1
      = [Settle.reject (Err.stateError "PeerConnection object is closed")]
    ∧ (stableReadyPeer.addIceCandidate (sampleCandidate 1)).1 = [Settle.resolve ()] := by
  refine ⟨(addIceCandidate_spec closedPeer (sampleCandidate 0)).2.1 rfl, ?_⟩
  exact ((addIceCandidate_spec stableReadyPeer (sampleCandidate 1)).2.2.1 rfl rfl).2.1 rfl

/-- In any signaling state other than `stable` and `closed`,
`addIceCandidate` only appends the candidate to the audit trail and to the
pending buffer (it resolves, touching nothing else — in particular the
engine state is unchanged). -/
theorem addIceCandidate_buffering (peer : WebRtcPeer) (c : RTCIceCandidate)
    (h1 : peer.pc.signalingState ≠ SignalingState.stable)
    (h2 : peer.pc.signalingState ≠ SignalingState.closed) :
    (peer.addIceCandidate c).2
      = { peer with
          remoteCandidatesQueue := peer.remoteCandidatesQueue ++ [c],
          iceCandidateList := peer.iceCandidateList ++ [c] } := by
  cases h : peer.pc.signalingState <;> first
    | exact absurd h h1
    | exact absurd h h2
    | simp [WebRtcPeer.addIceCandidate, h]

/-- Folding a sequence of `addIceCandidate` calls in a buffering state
appends the whole sequence, in arrival order, to the audit trail and to the
pending buffer. -/
theorem foldl_addIceCandidate_buffering (cs : List RTCIceCandidate) (peer : WebRtcPeer)
    (h1 : peer.pc.signalingState ≠ SignalingState.stable)
    (h2 : peer.pc.signalingState ≠ SignalingState.closed) :
    cs.foldl (fun p c => (p.addIceCandidate c).2) peer
      = { peer with
          remoteCandidatesQueue := peer.remoteCandidatesQueue ++ cs,
          iceCandidateList := peer.iceCandidateList ++ cs } := by
  induction cs generalizing peer with
  | nil => simp
  | cons c rest ih =>
      rw [List.foldl_cons, addIceCandidate_buffering peer c h1 h2,
        ih { peer with
          remoteCandidatesQueue := peer.remoteCandidatesQueue ++ [c],
          iceCandidateList := peer.iceCandidateList ++ [c] } h1 h2]
      simp

/-- C3: for every sequence of `addRemoteCandidate` calls issued while the
signaling state is neither `stable` nor `closed` (a `closed` engine never
transitions again, so a later transition into `stable` excludes it; in
`closed` the call rejects instead of buffering), once the engine is
observed transitioning into `stable` the flush hands all buffered
candidates to the engine in their original arrival order — the engine's
application log extends by exactly the buffered sequence, for EVERY choice
of per-candidate engine failures (`badCandidates` is universally
quantified as part of `peer`), so an individual failure does not stop the
remaining candidates — and the `iceCandidateList` buffer is empty
afterwards. -/
theorem buffered_candidates_flushed_fifo (peer : WebRtcPeer) (cs : List RTCIceCandidate)
    (h1 : peer.pc.signalingState ≠ SignalingState.stable)
    (h2 : peer.pc.signalingState ≠ SignalingState.closed) :
    let peer2 := cs.foldl (fun p c => (p.addIceCandidate c).2) peer
    let peer3 := WebRtcPeer.onSignalingStateChange
      { peer2 with pc := { peer2.pc with signalingState := SignalingState.stable } }
    peer2.iceCandidateList = peer.iceCandidateList ++ cs
    ∧ peer3.pc.appliedCandidates
        = peer.pc.appliedCandidates ++ peer.iceCandidateList ++ cs
    ∧ peer3.iceCandidateList = [] := by
  intro peer2 peer3
  have hfold := foldl_addIceCandidate_buffering cs peer h1 h2
  have h2eq : peer2 = { peer with
      remoteCandidatesQueue := peer.remoteCandidatesQueue ++ cs,
      iceCandidateList := peer.iceCandidateList ++ cs } := hfold
  refine ⟨by rw [h2eq], ?_, ?_⟩
  · show (WebRtcPeer.onSignalingStateChange _).pc.appliedCandidates = _
    rw [h2eq]
    simp [WebRtcPeer.onSignalingStateChange, drainIceCandidateLoop_appliedCandidates]
  · show (WebRtcPeer.onSignalingStateChange _).iceCandidateList = []
    rw [h2eq]
    simp [WebRtcPeer.onSignalingStateChange]

/-- Witness for C3: three candidates buffered in `have-local-offer`, the
middle one failed by the engine (`flushPeer.pc.badCandidates`), are all
handed to the engine in arrival order and the buffer ends empty. -/
theorem buffered_candidates_flushed_fifo_witness :
    (WebRtcPeer.onSignalingStateChange
      { ([sampleCandidate 0, sampleCandidate 1, sampleCandidate 2].foldl
          (fun p c => (p.addIceCandidate c).2) flushPeer) with
        pc := { ([sampleCandidate 0, sampleCandidate 1, sampleCandidate 2].foldl
            (fun p c => (p.addIceCandidate c).2) flushPeer).pc with
          signalingState := SignalingState.stable } }).pc.appliedCandidates
      = [sampleCandidate 0, sampleCandidate 1, sampleCandidate 2] := by
  have h := buffered_candidates_flushed_fifo flushPeer
    [sampleCandidate 0, sampleCandidate 1, sampleCandidate 2] (by decide) (by decide)
  simpa using h.2.1

/-- C7: on a transceiver-capable engine, `createOffer` in a send mode with
no configured outgoing stream rejects with the configuration error and
returns at once: the controller state is unchanged — in particular no
transceiver is added and no offer is requested from the engine. -/
theorem createOffer_no_stream (peer : WebRtcPeer)
    (htc : peer.pc.supportsTransceivers = true)
    (hmode : peer.configuration.mode ≠ Mode.recvonly)
    (hstream : peer.configuration.mediaStream = none) :
    (peer.createOffer).1
      = [Settle.reject (Err.configurationError
          (peer.configuration.mode.str ++
           " direction requested, but no stream was configured to be sent"))]
    ∧ (peer.createOffer).2 = peer
    ∧ (peer.createOffer).2.pc.transceivers = peer.pc.transceivers
    ∧ (peer.createOffer).2.pc.createOfferCalls = peer.pc.createOfferCalls := by
  have h : peer.createOffer
      = ([Settle.reject (Err.configurationError
          (peer.configuration.mode.str ++
           " direction requested, but no stream was configured to be sent"))], peer) := by
    unfold WebRtcPeer.createOffer
    rw [if_pos htc, if_pos hmode, hstream]
  rw [h]
  exact ⟨rfl, rfl, rfl, rfl⟩

/-- Witness for C7 at a concrete send-receive peer with no outgoing
stream configured: the state is untouched. -/
theorem createOffer_no_stream_witness :
    (basePeer.createOffer).2 = basePeer :=
  (createOffer_no_stream basePeer rfl (by decide) rfl).2.1

/-- `engineCreateOffer` changes nothing but the offer-request counter
(whether it succeeds or fails). -/
theorem engineCreateOffer_snd (pc : RTCPeerConnection) (options : Option (Bool × Bool)) :
    (engineCreateOffer pc options).2
      = { pc with createOfferCalls := pc.createOfferCalls + 1 } := by
  simp only [engineCreateOffer]
  split <;> rfl

/-- Adding transceivers for all tracks of a stream appends, in track order,
one transceiver per track with the configured direction and the stream
attached; video tracks carry the simulcast table as send encodings, other
tracks carry none. -/
theorem foldl_addTransceiverForTrack (mode : Mode) (stream : MediaStream)
    (pc : RTCPeerConnection) (tracks : List MediaTrack) :
    (tracks.foldl (addTransceiverForTrack mode stream) pc).transceivers
      = pc.transceivers ++ tracks.map (fun track =>
          { kind := track.kind,
            direction := mode.str,
            streams := [stream],
            sendEncodings :=
              if track.kind = "video" then some simulcastVideoEncodings else none,
            receiverTrackKind := track.kind }) := by
  induction tracks generalizing pc with
  | nil => simp
  | cons t ts ih =>
      rw [List.foldl_cons, ih]
      simp [addTransceiverForTrack]

/-- C6: on the transceiver path in a send mode, with `simulcast = true`,
every transceiver `createOffer` adds (the suffix of the engine's
transceiver list beyond what was already there) carries exactly the fixed
ordered 3-entry encoding table — rids `r0`, `r1`, `r2`, maxBitrate
`700000`, `800000`, `900000`, scaleResolutionDownBy `16`, `8`, `1` — when
it is for a video track, and carries no send encodings when it is for any
other (audio) track. -/
theorem createOffer_simulcast_encodings (peer : WebRtcPeer) (stream : MediaStream)
    (_hsim : peer.configuration.simulcast = true)
    (htc : peer.pc.supportsTransceivers = true)
    (hmode : peer.configuration.mode ≠ Mode.recvonly)
    (hstream : peer.configuration.mediaStream = some stream) :
    ∀ tc ∈ (peer.createOffer).2.pc.transceivers.drop peer.pc.transceivers.length,
      (tc.kind = "video" →
        tc.sendEncodings = some
          [ { rid := "r0", maxBitrate := 700000, scaleResolutionDownBy := 16 },
            { rid := "r1", maxBitrate := 800000, scaleResolutionDownBy := 8 },
            { rid := "r2", maxBitrate := 900000, scaleResolutionDownBy := 1 } ])
      ∧ (tc.kind ≠ "video" → tc.sendEncodings = none) := by
  have hoffer : (peer.createOffer).2.pc
      = (engineCreateOffer (stream.tracks.foldl
          (addTransceiverForTrack peer.configuration.mode stream) peer.pc) none).2 := by
    unfold WebRtcPeer.createOffer
    rw [if_pos htc, if_pos hmode, hstream]
  intro tc hmem
  rw [hoffer, engineCreateOffer_snd] at hmem
  simp only [foldl_addTransceiverForTrack, List.drop_left] at hmem
  obtain ⟨track, -, rfl⟩ := List.mem_map.mp hmem
  constructor
  · intro hv
    have hv2 : track.kind = "video" := hv
    simp [hv2, simulcastVideoEncodings]
  · intro hv
    have hv2 : ¬track.kind = "video" := hv
    simp [hv2]

/-- Witness for C6: for the concrete send-receive peer with one audio and
one video track, the video transceiver added by `createOffer` exists among
the new transceivers and carries the fixed table. -/
theorem createOffer_simulcast_encodings_witness :
    sendVideoTc ∈ (sendPeer.createOffer).2.pc.transceivers.drop
        sendPeer.pc.transceivers.length
    ∧ sendVideoTc.sendEncodings = some
        [ { rid := "r0", maxBitrate := 700000, scaleResolutionDownBy := 16 },
          { rid := "r1", maxBitrate := 800000, scaleResolutionDownBy := 8 },
          { rid := "r2", maxBitrate := 900000, scaleResolutionDownBy := 1 } ] := by
  refine ⟨by decide, ?_⟩
  exact (createOffer_simulcast_encodings sendPeer streamAV rfl rfl (by decide) rfl
    sendVideoTc (by decide)).1 rfl

/-- C8: on the transceiver path in receive-only mode, `createOffer` adds
exactly one receive-only transceiver per media kind enabled in
`mediaConstraints` and none for disabled kinds; every added transceiver has
direction `"recvonly"` and is bound to exactly one stream, that stream is
empty (no tracks), and the streams of distinct added transceivers are
distinct (each was freshly created by its own `new MediaStream()`). -/
theorem createOffer_recvonly_transceivers (peer : WebRtcPeer)
    (htc : peer.pc.supportsTransceivers = true)
    (hmode : peer.configuration.mode = Mode.recvonly) :
    ((peer.createOffer).2.pc.transceivers.drop peer.pc.transceivers.length).length
        = (if peer.configuration.mediaConstraints.audio then 1 else 0)
          + (if peer.configuration.mediaConstraints.video then 1 else 0)
    ∧ (((peer.createOffer).2.pc.transceivers.drop peer.pc.transceivers.length).filter
          (fun tc => tc.kind == "audio")).length
        = (if peer.configuration.mediaConstraints.audio then 1 else 0)
    ∧ (((peer.createOffer).2.pc.transceivers.drop peer.pc.transceivers.length).filter
          (fun tc => tc.kind == "video")).length
        = (if peer.configuration.mediaConstraints.video then 1 else 0)
    ∧ (∀ tc ∈ (peer.createOffer).2.pc.transceivers.drop peer.pc.transceivers.length,
        tc.direction = "recvonly"
        ∧ tc.streams.length = 1
        ∧ ∀ s ∈ tc.streams, s.tracks = [])
    ∧ ((peer.createOffer).2.pc.transceivers.drop peer.pc.transceivers.length).Pairwise
        (fun a b => a.streams ≠ b.streams) := by
  have hne : ¬ peer.configuration.mode ≠ Mode.recvonly := by simp [hmode]
  cases haudio : peer.configuration.mediaConstraints.audio <;>
    cases hvideo : peer.configuration.mediaConstraints.video <;>
    simp [WebRtcPeer.createOffer, addRecvonlyTransceiver, engineCreateOffer_snd,
      MediaConstraints.get_audio, MediaConstraints.get_video, htc, hne, hmode, Mode.str,
      haudio, hvideo, List.drop_left]

/-- Witness for C8 at the concrete audio-only receive peer: exactly one
transceiver is created. -/
theorem createOffer_recvonly_transceivers_witness :
    ((recvPeer.createOffer).2.pc.transceivers.drop recvPeer.pc.transceivers.length).length
      = 1 := by
  have h := createOffer_recvonly_transceivers recvPeer rfl rfl
  simpa using h.1
